import Mathlib

/-!
Verification of the BANANAIQ banana-shelf-life monitor (`src/main.py`) against
its specification.  The core of `main.py` — the MQ-4 resistance model,
clean-air calibration, power-law methane estimation, the five-entry smoothing
window, the threshold shelf-life classifier, the two-screen LCD renderer, and
the per-cycle glue of `__main__` — is embedded shallowly below.  Hardware
reads (the ADC raw sample, the DHT11 measurement) are inputs of the embedded
functions; exceptions are `Except` values; Python floats along the resistance
pipeline are either finite (embedded as rationals) or `float('inf')`.
-/

/-- Shelf-life threshold `METHANE_FRESH` (`src/main.py` line 10). -/
def METHANE_FRESH : ℚ := 8

/-- Shelf-life threshold `METHANE_EARLY` (`src/main.py` line 11). -/
def METHANE_EARLY : ℚ := 10

/-- Shelf-life threshold `METHANE_ACTIVE` (`src/main.py` line 12). -/
def METHANE_ACTIVE : ℚ := 12

/-- Clean-air factor default `SensorSuite.RO_CLEAN_AIR_FACTOR_DEFAULT = 4.0`
(`src/main.py` line 17). -/
def RO_CLEAN_AIR_FACTOR_DEFAULT : ℚ := 4

/-- A Python float value of the MQ-4 resistance pipeline: finite (embedded as
a rational) or `float('inf')` (`get_rs` returns it for a non-positive
voltage).  NaN never arises in the pipeline while the calibrated baseline is
finite; where a division could produce NaN the embedding returns an `Option`
with `none` for NaN instead of an `RVal`. -/
inductive RVal where
  | inf : RVal
  | fin : ℚ → RVal
deriving DecidableEq, Repr

/-- Python exceptions the embedded code can raise: the
`RuntimeError("MQ-4 Ro not calibrated...")` of `read_mq4_ratio`
(`src/main.py` line 64), a transient hardware read exception as raised inside
`read_dht` by the DHT11 driver (`src/main.py` lines 28-33), and the
`TypeError` that formatting `None` with the `:.2f` format spec raises in the
status line of `__main__` (`src/main.py` line 181). -/
inductive PyExc where
  | runtimeUncalibrated : PyExc
  | sensorReadFailure : PyExc
  | typeErrorNoneFormat : PyExc
deriving DecidableEq, Repr

/-- Python float addition restricted to the values of the pipeline:
`inf + x = x + inf = inf` (used by the `total_rs` accumulation of
`calibrate_mq4_ro`, `src/main.py` line 55). -/
def RVal.add : RVal → RVal → RVal
  | .inf, _ => .inf
  | .fin _, .inf => .inf
  | .fin a, .fin b => .fin (a + b)

/-- Python float division of a pipeline value by a positive rational
(`avg_rs = total_rs / samples` and `avg_rs / self.mq4_ro_factor`,
`src/main.py` lines 57-58): `inf / d = inf`, finite stays finite.  Every call
site divides by a positive count or factor. -/
def RVal.divQ : RVal → ℚ → RVal
  | .inf, _ => .inf
  | .fin a, d => .fin (a / d)

/-- Python float division `rs / ro` with `ro ≠ 0` (`src/main.py` line 67):
`inf / inf` is NaN (`none`), `inf / finite = inf`, `finite / inf = 0`,
`finite / finite` is the rational quotient. -/
def RVal.divR : RVal → RVal → Option RVal
  | .inf, .inf => none
  | .inf, .fin _ => some .inf
  | .fin _, .inf => some (.fin 0)
  | .fin a, .fin b => some (.fin (a / b))

/-- The state of `SensorSuite` (`src/main.py` lines 16-25) that the gas
pipeline reads: the load resistor `mq4_rl`, the reference voltage `mq4_vref`,
the clean-air factor `mq4_ro_factor`, and the calibrated baseline `mq4_ro`
(`none` = uncalibrated).  The pin objects and drivers are hardware handles;
their readings are inputs of the embedded operations. -/
structure SensorSuite where
  mq4_rl : ℚ
  mq4_vref : ℚ
  mq4_ro_factor : ℚ
  mq4_ro : Option RVal
deriving DecidableEq, Repr

/-- The `mq4_ro_clean_air_factor or self.RO_CLEAN_AIR_FACTOR_DEFAULT`
expression of `SensorSuite.__init__` (`src/main.py` line 24): Python `or`
yields the default for a falsy left operand, and both `None` and `0` (and
`0.0`) are falsy. -/
def initFactor (mq4_ro_clean_air_factor : Option ℚ) : ℚ :=
  match mq4_ro_clean_air_factor with
  | none => RO_CLEAN_AIR_FACTOR_DEFAULT
  | some q => if q = 0 then RO_CLEAN_AIR_FACTOR_DEFAULT else q

/-- `SensorSuite.__init__` (`src/main.py` lines 19-25): stores the constants,
applies the `or` fallback to the clean-air factor, and leaves `mq4_ro`
uncalibrated (`None`). -/
def SensorSuite.init (mq4_rl mq4_vref : ℚ) (mq4_ro_clean_air_factor : Option ℚ) :
    SensorSuite :=
  ⟨mq4_rl, mq4_vref, initFactor mq4_ro_clean_air_factor, none⟩

/-- `SensorSuite.read_dht` (`src/main.py` lines 27-33): the DHT11
`measure()` outcome is an input; on an exception both readings are `None`. -/
def read_dht (measurement : Except PyExc (ℚ × ℚ)) : Option ℚ × Option ℚ :=
  match measurement with
  | .error _ => (none, none)
  | .ok th => (some th.1, some th.2)

/-- `SensorSuite.voltage_from_raw` (`src/main.py` lines 38-39):
`(raw / 65535.0) * self.mq4_vref`. -/
def voltage_from_raw (mq4_vref raw : ℚ) : ℚ :=
  raw / 65535 * mq4_vref

/-- `SensorSuite.get_rs` (`src/main.py` lines 41-48): `float('inf')` for a
non-positive voltage, `0.0` for a voltage at or above the reference, else
`self.mq4_rl * (self.mq4_vref - voltage) / voltage`.  Total: every input
yields a defined value, never an error. -/
def get_rs (mq4_rl mq4_vref voltage : ℚ) : RVal :=
  if voltage ≤ 0 then .inf
  else if mq4_vref ≤ voltage then .fin 0
  else .fin (mq4_rl * (mq4_vref - voltage) / voltage)

/-- One sample's resistance as the calibration loop and `read_mq4_ratio`
compute it (`src/main.py` lines 54-55 and 65-66):
`get_rs(voltage_from_raw(read_u16()))`, with the raw ADC sample an input. -/
def rs_of_raw (s : SensorSuite) (raw : ℚ) : RVal :=
  get_rs s.mq4_rl s.mq4_vref (voltage_from_raw s.mq4_vref raw)

/-- `SensorSuite.calibrate_mq4_ro` (`src/main.py` lines 50-60).  The loop of
`samples` hardware reads is embedded as the list `raws` of raw ADC samples it
consumes (one per iteration; `delay_ms` is pure timing and has no effect on
the value).  `total_rs` starts at `0` and accumulates `get_rs` of each
sample; the average is divided by the clean-air factor, and the result
overwrites `self.mq4_ro` whatever it held before.  (With `samples = 0` the
Python raises ZeroDivisionError; no caller does that — `raws = []` here
yields the junk value `fin 0 / 0`.) -/
def calibrate_mq4_ro (s : SensorSuite) (raws : List ℚ) : SensorSuite × RVal :=
  let total_rs := (raws.map (rs_of_raw s)).foldl RVal.add (.fin 0)
  let avg_rs := total_rs.divQ (raws.length : ℚ)
  let ro := avg_rs.divQ s.mq4_ro_factor
  ({ s with mq4_ro := some ro }, ro)

/-- `SensorSuite.read_mq4_ratio` (`src/main.py` lines 62-67): raises
`RuntimeError` when `mq4_ro is None`; otherwise returns
`rs / mq4_ro if mq4_ro != 0 else float('inf')`.  The `ok` payload is
`Option RVal` with `none` for a NaN ratio (`inf / inf`, reachable only with
an infinite baseline). -/
def read_mq4_ratio (s : SensorSuite) (raw : ℚ) : Except PyExc (Option RVal) :=
  match s.mq4_ro with
  | none => .error .runtimeUncalibrated
  | some ro =>
      let rs := rs_of_raw s raw
      if ro = RVal.fin 0 then .ok (some .inf) else .ok (rs.divR ro)

/-- `SensorSuite.estimate_methane_ppm` (`src/main.py` lines 70-78):
`ppm = 12 * (ratio ** -0.5)` inside `try`, result clamped by `max(ppm, 0)`;
any exception yields `None`.  Python evaluates `ratio ** -0.5` to `0.0` at
`ratio = inf`, raises ZeroDivisionError at `ratio = 0.0` (caught → `None`),
and at a negative ratio yields a complex number whose comparison inside `max`
raises TypeError (caught → `None`).  At a positive finite ratio the value is
the irrational `1 / sqrt(ratio)`, abstracted here as the parameter
`powNegHalf` (the claims never depend on its value). -/
def estimate_methane_ppm (powNegHalf : ℚ → ℚ) (r : RVal) : Option ℚ :=
  match r with
  | .inf => some (max (12 * 0) 0)
  | .fin q => if q ≤ 0 then none else some (max (12 * powNegHalf q) 0)

/-- `SensorSuite.read_all` (`src/main.py` lines 80-88): DHT pair via
`read_dht`; `methane_ppm` starts `None` and is set from the ratio and the
estimator, with any exception of the MQ-4 path caught (printed) and the
`None` kept.  A NaN ratio (infinite baseline only) would propagate NaN in
Python; no claim reaches that branch and the embedding keeps `None` there. -/
def read_all (s : SensorSuite) (measurement : Except PyExc (ℚ × ℚ)) (raw : ℚ)
    (powNegHalf : ℚ → ℚ) : Option ℚ × Option ℚ × Option ℚ :=
  let th := read_dht measurement
  let methane_ppm : Option ℚ :=
    match read_mq4_ratio s raw with
    | .error _ => none
    | .ok none => none
    | .ok (some r) => estimate_methane_ppm powNegHalf r
  (th.1, th.2, methane_ppm)

/-- The append-then-evict step of the smoothing block (`src/main.py` lines
160-162): `methane_history.append(methane)`, then `pop(0)` once the length
exceeds 5. -/
def push_methane_history (methane_history : List ℚ) (methane : ℚ) : List ℚ :=
  let h := methane_history ++ [methane]
  if 5 < h.length then h.tail else h

/-- The whole smoothing block of `__main__` (`src/main.py` lines 159-165):
when the cycle's methane reading is present it is pushed and `methane_avg`
is the mean of the window; when it is `None`, `methane_avg` is `None` and
the window is untouched. -/
def smooth_step (methane_history : List ℚ) (methane : Option ℚ) :
    List ℚ × Option ℚ :=
  match methane with
  | some m =>
      let h := push_methane_history methane_history m
      (h, some (h.sum / (h.length : ℚ)))
  | none => (methane_history, none)

/-- The smoothing block iterated from an empty history over a list of
successful readings. -/
def run_smoothing (vals : List ℚ) : List ℚ × Option ℚ :=
  vals.foldl (fun acc v => smooth_step acc.1 (some v)) ([], none)

/-- The threshold-based shelf-life block of `__main__` (`src/main.py` lines
169-178): `"Unknown"` for an absent average, then strict `<` comparisons
against the three thresholds. -/
def shelf_life_of (methane_avg : Option ℚ) : String :=
  match methane_avg with
  | none => "Unknown"
  | some v =>
      if v < METHANE_FRESH then "5-7 Days"
      else if v < METHANE_EARLY then "3-5 Days"
      else if v < METHANE_ACTIVE then "1-3 Days"
      else "0 Days"

/-- Python `int()` on a float/rational: truncation toward zero (used by
`int(float(humidity))`, `src/main.py` lines 111 and 156). -/
def pyTrunc (q : ℚ) : ℤ :=
  if q < 0 then ⌈q⌉ else ⌊q⌋

/-- Fixed-point rendering with one fractional digit, the `:.1f` format spec
of `src/main.py` line 107, on the embedded rational.  (Ties round half-up
here rather than IEEE half-even; no claim evaluates it at a tie.) -/
def formatFixed1 (q : ℚ) : String :=
  let c : ℤ := round (q * 10)
  let sign := if c < 0 then "-" else ""
  sign ++ toString (c.natAbs / 10) ++ "." ++ toString (c.natAbs % 10)

/-- Fixed-point rendering with two fractional digits, the `:.2f` format spec
of `src/main.py` lines 124 and 181, on the embedded rational.  (Ties round
half-up here rather than IEEE half-even; no claim evaluates it at a tie.) -/
def formatFixed2 (q : ℚ) : String :=
  let c : ℤ := round (q * 100)
  let sign := if c < 0 then "-" else ""
  let frac := c.natAbs % 100
  sign ++ toString (c.natAbs / 100) ++ "." ++
    (if frac < 10 then "0" else "") ++ toString frac

/-- `BananaLcdDisplay.pad` (`src/main.py` lines 97-101): pad with spaces or
truncate to the 16-column width. -/
def pad (text : String) : String :=
  if text.length < 16 then text.pushn ' ' (16 - text.length) else text.take 16

/-- The temperature line of `display_screen_1` (`src/main.py` lines
106-109): `float(temperature)` succeeds on a number and raises on `None`,
in which case the `except` arm yields `"Temp: N/A"`. -/
def screen1_temp_str (temperature : Option ℚ) : String :=
  match temperature with
  | some t => "Temp: " ++ formatFixed1 t ++ "C"
  | none => "Temp: N/A"

/-- The humidity line of `display_screen_1` (`src/main.py` lines 110-114):
`int(float(humidity))` raises on `None`, giving `"Humidity: N/A"`. -/
def screen1_humid_str (humidity : Option ℚ) : String :=
  match humidity with
  | some h => "Humidity: " ++ toString (pyTrunc h) ++ "%"
  | none => "Humidity: N/A"

/-- The methane line of `BananaLcdDisplay.display_screen_2` (`src/main.py`
lines 122-126): `float(methane)` succeeds on any number, so the `except`
arm (`"Methane: N/A"`) is taken exactly for a non-numeric argument such as
`None`. -/
def screen2_methane_str (methane : Option ℚ) : String :=
  match methane with
  | some m => "Methane: " ++ formatFixed2 m ++ "ppm"
  | none => "Methane: N/A"

/-- The shelf-life line of `display_screen_2` (`src/main.py` line 127):
`str(shelf_life)` unless it is `None`. -/
def screen2_shelf_str (shelf_life : Option String) : String :=
  match shelf_life with
  | some sl => sl
  | none => "Shelf Life: N/A"

/-- `BananaLcdDisplay.display_screen_1` (`src/main.py` lines 104-118) as the
two 16-column lines it writes. -/
def display_screen_1 (temperature humidity : Option ℚ) : List String :=
  [pad (screen1_temp_str temperature), pad (screen1_humid_str humidity)]

/-- `BananaLcdDisplay.display_screen_2` (`src/main.py` lines 120-131) as the
two 16-column lines it writes. -/
def display_screen_2 (methane : Option ℚ) (shelf_life : Option String) :
    List String :=
  [pad (screen2_methane_str methane), pad (screen2_shelf_str shelf_life)]

/-- `BananaLcdDisplay.update` (`src/main.py` lines 133-139): screen 0 shows
temperature/humidity and moves to screen 1; otherwise screen 2 is shown and
the index returns to 0.  `false` embeds `current_screen = 0`. -/
def display_update (current_screen : Bool) (temperature humidity methane : Option ℚ)
    (shelf_life : Option String) : Bool × List String :=
  if current_screen = false then (true, display_screen_1 temperature humidity)
  else (false, display_screen_2 methane shelf_life)

/-- The `methane_avg or 0` argument of the `display.update` call
(`src/main.py` line 183): Python `or` yields `0` for a falsy left operand,
i.e. for `None` and for `0.0`. -/
def py_or_zero (methane_avg : Option ℚ) : ℚ :=
  match methane_avg with
  | none => 0
  | some v => if v = 0 then 0 else v

/-- The `{methane_avg:.2f}` field of the status f-string (`src/main.py` line
181), the line's only fallible field: formatting `None` with the `:.2f`
format spec raises TypeError; the other fields use plain `str()`
conversions, which are total. -/
def status_methane_field (methane_avg : Option ℚ) : Except PyExc String :=
  match methane_avg with
  | none => .error .typeErrorNoneFormat
  | some v => .ok (formatFixed2 v)

/-- What one loop iteration of `__main__` leaves behind when it completes. -/
structure CycleOutput where
  methane_history : List ℚ
  methane_avg : Option ℚ
  shelf_life : String
  next_screen : Bool
  lines : List String
deriving DecidableEq, Repr

/-- One iteration of the `while True` loop of `__main__` (`src/main.py`
lines 154-185): `read_all`, the numeric conversions of lines 155-156, the
smoothing block, the shelf-life block, the status print of line 181 (whose
methane field raises TypeError on `None` — the only `raise` the loop's
`try` does not catch, since it handles `KeyboardInterrupt` alone), and the
`display.update` call of line 183.  An uncaught exception the iteration
raises is the `error` case and crashes the process. -/
def run_cycle (s : SensorSuite) (measurement : Except PyExc (ℚ × ℚ)) (raw : ℚ)
    (powNegHalf : ℚ → ℚ) (methane_history : List ℚ) (current_screen : Bool) :
    Except PyExc CycleOutput :=
  let tm := read_all s measurement raw powNegHalf
  let temp_val := tm.1
  let humid_val := (tm.2.1).map fun h => ((pyTrunc h : ℤ) : ℚ)
  let methane := tm.2.2
  let hs := smooth_step methane_history methane
  let shelf_life := shelf_life_of hs.2
  match status_methane_field hs.2 with
  | .error e => .error e
  | .ok _ =>
      let du := display_update current_screen temp_val humid_val
        (some (py_or_zero hs.2)) (some shelf_life)
      .ok ⟨hs.1, hs.2, shelf_life, du.1, du.2⟩

/-! ## Theorems -/

/-- C4: the shelf-life block is a pure function of the smoothed value with
exact strict-< boundaries: absent yields "Unknown"; below 8 yields
"5-7 Days"; in [8, 10) yields "3-5 Days"; in [10, 12) yields "1-3 Days";
at or above 12 yields "0 Days"; and at the quoted boundary points,
classify(7.99) = "5-7 Days", classify(8) = "3-5 Days",
classify(12) = "0 Days". -/
theorem C4_classify_thresholds :
    shelf_life_of none = "Unknown" ∧
    (∀ v : ℚ, v < 8 → shelf_life_of (some v) = "5-7 Days") ∧
    (∀ v : ℚ, 8 ≤ v → v < 10 → shelf_life_of (some v) = "3-5 Days") ∧
    (∀ v : ℚ, 10 ≤ v → v < 12 → shelf_life_of (some v) = "1-3 Days") ∧
    (∀ v : ℚ, 12 ≤ v → shelf_life_of (some v) = "0 Days") ∧
    shelf_life_of (some (799 / 100)) = "5-7 Days" ∧
    shelf_life_of (some 8) = "3-5 Days" ∧
    shelf_life_of (some 12) = "0 Days" := by
  have h57 : ∀ v : ℚ, v < 8 → shelf_life_of (some v) = "5-7 Days" := by
    intro v hv
    simp only [shelf_life_of, METHANE_FRESH]
    rw [if_pos hv]
  have h35 : ∀ v : ℚ, 8 ≤ v → v < 10 → shelf_life_of (some v) = "3-5 Days" := by
    intro v h8 h10
    simp only [shelf_life_of, METHANE_FRESH, METHANE_EARLY]
    rw [if_neg (not_lt.mpr h8), if_pos h10]
  have h13 : ∀ v : ℚ, 10 ≤ v → v < 12 → shelf_life_of (some v) = "1-3 Days" := by
    intro v h10 h12
    simp only [shelf_life_of, METHANE_FRESH, METHANE_EARLY, METHANE_ACTIVE]
    rw [if_neg (not_lt.mpr (by linarith)), if_neg (not_lt.mpr h10), if_pos h12]
  have h0 : ∀ v : ℚ, 12 ≤ v → shelf_life_of (some v) = "0 Days" := by
    intro v h12
    simp only [shelf_life_of, METHANE_FRESH, METHANE_EARLY, METHANE_ACTIVE]
    rw [if_neg (not_lt.mpr (by linarith)), if_neg (not_lt.mpr (by linarith)),
      if_neg (not_lt.mpr h12)]
  refine ⟨rfl, h57, h35, h13, h0, h57 _ (by norm_num), h35 _ (by norm_num) (by norm_num),
    h0 _ (by norm_num)⟩

/-- C5: `read_mq4_ratio` on an uncalibrated suite (`mq4_ro is None`) raises
the explicit `RuntimeError` — a signal distinct from a transient sensor-read
exception — and never returns a numeric result. -/
theorem C5_uncalibrated_error (s : SensorSuite) (raw : ℚ) (h : s.mq4_ro = none) :
    read_mq4_ratio s raw = .error .runtimeUncalibrated ∧
    (∀ r, read_mq4_ratio s raw ≠ .ok r) ∧
    PyExc.runtimeUncalibrated ≠ PyExc.sensorReadFailure := by
  refine ⟨?_, ?_, by decide⟩
  · simp [read_mq4_ratio, h]
  · intro r
    simp [read_mq4_ratio, h]

/-- C5 witness: the freshly constructed suite is uncalibrated and signals
the uncalibrated error at a concrete raw sample. -/
theorem C5_uncalibrated_error_witness :
    read_mq4_ratio ⟨10000, 33 / 10, 4, none⟩ 32768
      = .error .runtimeUncalibrated :=
  (C5_uncalibrated_error ⟨10000, 33 / 10, 4, none⟩ 32768 rfl).1

/-- C7: `estimate_methane_ppm` resolves both degenerate ratios without
propagating a fault, whatever the (abstracted) power evaluation does on
positive inputs: ratio 0 yields the absent value `None` (the
ZeroDivisionError of `0.0 ** -0.5` is caught), and ratio `inf` yields the
numeric result 0 after the minimum clamp. -/
theorem C7_estimate_degenerate_ratios (powNegHalf : ℚ → ℚ) :
    estimate_methane_ppm powNegHalf (RVal.fin 0) = none ∧
    estimate_methane_ppm powNegHalf RVal.inf = some 0 := by
  constructor
  · simp [estimate_methane_ppm]
  · simp [estimate_methane_ppm]

/-- C9: the voltage conversion is `raw / 65535 * vref`, and the resistance
conversion is total with sentinel outputs: `inf` for a non-positive voltage,
`0` for a voltage at or above a positive reference, and
`rl * (vref - voltage) / voltage` strictly between. -/
theorem C9_resistance_model :
    (∀ mq4_vref raw : ℚ, voltage_from_raw mq4_vref raw = raw / 65535 * mq4_vref) ∧
    (∀ mq4_rl mq4_vref voltage : ℚ, voltage ≤ 0 →
      get_rs mq4_rl mq4_vref voltage = RVal.inf) ∧
    (∀ mq4_rl mq4_vref voltage : ℚ, 0 < mq4_vref → mq4_vref ≤ voltage →
      get_rs mq4_rl mq4_vref voltage = RVal.fin 0) ∧
    (∀ mq4_rl mq4_vref voltage : ℚ, 0 < voltage → voltage < mq4_vref →
      get_rs mq4_rl mq4_vref voltage
        = RVal.fin (mq4_rl * (mq4_vref - voltage) / voltage)) := by
  refine ⟨fun _ _ => rfl, ?_, ?_, ?_⟩
  · intro rl vref v hv
    simp only [get_rs]
    rw [if_pos hv]
  · intro rl vref v hvref hv
    simp only [get_rs]
    rw [if_neg (not_le.mpr (by linarith)), if_pos hv]
  · intro rl vref v h0 hv
    simp only [get_rs]
    rw [if_neg (not_le.mpr h0), if_neg (not_le.mpr hv)]

/-- C9 witness: the three regimes at concrete inputs with the source's
constants (`rl = 10000`, `vref = 3.3`). -/
theorem C9_resistance_model_witness :
    get_rs 10000 (33 / 10) 0 = RVal.inf ∧
    get_rs 10000 (33 / 10) (33 / 10) = RVal.fin 0 ∧
    get_rs 10000 (33 / 10) (165 / 100)
      = RVal.fin (10000 * (33 / 10 - 165 / 100) / (165 / 100)) :=
  ⟨C9_resistance_model.2.1 10000 (33 / 10) 0 le_rfl,
    C9_resistance_model.2.2.1 10000 (33 / 10) (33 / 10) (by norm_num) le_rfl,
    C9_resistance_model.2.2.2 10000 (33 / 10) (165 / 100) (by norm_num) (by norm_num)⟩

/-- C10: constructing the suite with `mq4_ro_clean_air_factor = 0` silently
substitutes the default 4.0 (Python `or` treats 0 as unset); the stored
factor is never 0 for any constructor argument, and calibration with the
zero argument behaves exactly as with the default. -/
theorem C10_zero_factor_falls_back_to_default :
    (∀ mq4_rl mq4_vref : ℚ,
      (SensorSuite.init mq4_rl mq4_vref (some 0)).mq4_ro_factor = 4) ∧
    (∀ (mq4_rl mq4_vref : ℚ) (arg : Option ℚ),
      (SensorSuite.init mq4_rl mq4_vref arg).mq4_ro_factor ≠ 0) ∧
    (∀ (mq4_rl mq4_vref : ℚ) (raws : List ℚ),
      calibrate_mq4_ro (SensorSuite.init mq4_rl mq4_vref (some 0)) raws
        = calibrate_mq4_ro (SensorSuite.init mq4_rl mq4_vref none) raws) := by
  have hinit : ∀ rl vref : ℚ,
      SensorSuite.init rl vref (some 0) = SensorSuite.init rl vref none := by
    intro rl vref
    simp [SensorSuite.init, initFactor]
  refine ⟨?_, ?_, ?_⟩
  · intro rl vref
    simp [SensorSuite.init, initFactor, RO_CLEAN_AIR_FACTOR_DEFAULT]
  · intro rl vref arg
    cases arg with
    | none => norm_num [SensorSuite.init, initFactor, RO_CLEAN_AIR_FACTOR_DEFAULT]
    | some q =>
        by_cases hq : q = 0
        · norm_num [SensorSuite.init, initFactor, RO_CLEAN_AIR_FACTOR_DEFAULT, hq]
        · simp [SensorSuite.init, initFactor, hq]
  · intro rl vref raws
    rw [hinit]

/-- Rendering the rational zero with the `:.2f` format spec gives `"0.00"`,
as Python's `f"{0.0:.2f}"` does. -/
theorem formatFixed2_zero : formatFixed2 0 = "0.00" := by
  simp only [formatFixed2]
  norm_num
  rfl

/-- The `total_rs` accumulation over finite resistance readings is the sum of
the readings. -/
theorem foldl_add_map_fin (l : List ℚ) (q : ℚ) :
    (l.map RVal.fin).foldl RVal.add (RVal.fin q) = RVal.fin (q + l.sum) := by
  induction l generalizing q with
  | nil => simp
  | cons a t ih =>
      simp only [List.map_cons, List.foldl_cons, RVal.add, ih, List.sum_cons]
      rw [add_assoc]

/-- One push never grows the window past five entries. -/
theorem push_methane_history_length_le (methane_history : List ℚ) (m : ℚ)
    (h : methane_history.length ≤ 5) :
    (push_methane_history methane_history m).length ≤ 5 := by
  simp only [push_methane_history]
  split_ifs with hlt
  · simp only [List.length_tail, List.length_append, List.length_singleton]
    omega
  · simp only [List.length_append, List.length_singleton] at hlt ⊢
    omega

/-- C6: `calibrate_mq4_ro` overwrites any previous baseline with the same
result, that result is (sum of the per-sample resistance readings /
sample count) / 4.0 when the factor is the default 4, and a constant
resistance stream of value V yields exactly V / 4. -/
theorem C6_calibration_baseline :
    (∀ (s : SensorSuite) (raws : List ℚ) (prev : Option RVal),
      (calibrate_mq4_ro { s with mq4_ro := prev } raws).1.mq4_ro
        = some (calibrate_mq4_ro s raws).2 ∧
      (calibrate_mq4_ro { s with mq4_ro := prev } raws).2
        = (calibrate_mq4_ro s raws).2) ∧
    (∀ (s : SensorSuite) (raws readings : List ℚ),
      s.mq4_ro_factor = 4 →
      raws.map (rs_of_raw s) = readings.map RVal.fin →
      (calibrate_mq4_ro s raws).2
        = RVal.fin (readings.sum / (readings.length : ℚ) / 4)) ∧
    (∀ (s : SensorSuite) (raws : List ℚ) (V : ℚ),
      s.mq4_ro_factor = 4 → raws ≠ [] →
      raws.map (rs_of_raw s) = List.replicate raws.length (RVal.fin V) →
      (calibrate_mq4_ro s raws).2 = RVal.fin (V / 4)) := by
  have hform : ∀ (s : SensorSuite) (raws readings : List ℚ),
      s.mq4_ro_factor = 4 →
      raws.map (rs_of_raw s) = readings.map RVal.fin →
      (calibrate_mq4_ro s raws).2
        = RVal.fin (readings.sum / (readings.length : ℚ) / 4) := by
    intro s raws readings hf hmap
    have hlen : raws.length = readings.length := by
      simpa using congrArg List.length hmap
    simp only [calibrate_mq4_ro, hmap, foldl_add_map_fin, RVal.divQ, hf, hlen,
      zero_add]
  refine ⟨fun s raws prev => ⟨rfl, rfl⟩, hform, ?_⟩
  intro s raws V hf hne hmap
  have hn : (raws.length : ℚ) ≠ 0 := by
    exact_mod_cast fun h => hne (List.length_eq_zero.mp h)
  have := hform s raws (List.replicate raws.length V) hf
    (by simpa [List.map_replicate] using hmap)
  rw [this]
  simp only [List.sum_replicate, List.length_replicate, nsmul_eq_mul]
  rw [mul_div_cancel_left₀ _ hn]

/-- C6 witness: calibrating with the single raw sample 65535 (voltage at the
reference, so `get_rs` reads 0 ohms) is a constant resistance stream of
value 0 and yields baseline 0 / 4 = 0. -/
theorem C6_calibration_baseline_witness :
    (calibrate_mq4_ro ⟨10000, 33 / 10, 4, none⟩ [65535]).2 = RVal.fin (0 / 4) :=
  C6_calibration_baseline.2.2 ⟨10000, 33 / 10, 4, none⟩ [65535] 0 rfl (by simp)
    (by norm_num [rs_of_raw, voltage_from_raw, get_rs, List.replicate])

/-- C8: the smoothing window holds at most five values (one push preserves
the bound, and any run from the empty window stays within it), a push onto a
full window evicts the oldest entry first-in-first-out, and pushing
[1, 2, 3, 4, 5, 6] leaves the window [2, 3, 4, 5, 6] with running average
mean(2, 3, 4, 5, 6) = 4. -/
theorem C8_window_capacity_and_fifo :
    (∀ (methane_history : List ℚ) (m : ℚ), methane_history.length ≤ 5 →
      (push_methane_history methane_history m).length ≤ 5) ∧
    (∀ (methane_history : List ℚ) (m : ℚ), methane_history.length = 5 →
      push_methane_history methane_history m = methane_history.tail ++ [m]) ∧
    (∀ vals : List ℚ, (run_smoothing vals).1.length ≤ 5) ∧
    run_smoothing [1, 2, 3, 4, 5, 6] = ([2, 3, 4, 5, 6], some 4) := by
  refine ⟨fun h m => push_methane_history_length_le h m, ?_, ?_, ?_⟩
  · intro h m h5
    cases h with
    | nil => simp at h5
    | cons a t =>
        have ht : t.length = 4 := by
          simpa using h5
        have hlen : 5 < ((a :: t) ++ [m]).length := by
          simp only [List.length_append, List.length_cons, List.length_nil, ht]
          omega
        simp only [push_methane_history, if_pos hlen]
        simp
  · have gen : ∀ (vals : List ℚ) (acc : List ℚ × Option ℚ), acc.1.length ≤ 5 →
        (vals.foldl (fun acc v => smooth_step acc.1 (some v)) acc).1.length ≤ 5 := by
      intro vals
      induction vals with
      | nil => intro acc h; simpa using h
      | cons a t ih =>
          intro acc h
          simp only [List.foldl_cons]
          exact ih _ (by simpa [smooth_step] using
            push_methane_history_length_le acc.1 a h)
    intro vals
    exact gen vals ([], none) (by simp)
  · norm_num [run_smoothing, smooth_step, push_methane_history]

/-- C3 counterexample: after one successful reading the window is the
nonempty [5], yet the next cycle with a failed reading yields an absent
smoothed value — refuting "absent only when the smoothing window is
empty". -/
theorem C3_counterexample :
    smooth_step [] (some 5) = ([5], some 5) ∧
    (smooth_step [5] none).2 = none ∧
    (smooth_step [5] none).1 = [5] ∧
    ([5] : List ℚ) ≠ [] := by
  refine ⟨?_, rfl, rfl, by simp⟩
  norm_num [smooth_step, push_methane_history]

/-- C3 amended: the smoothed value is absent exactly when the current
cycle's own reading is absent — a failed cycle leaves the window unchanged
and yields `None` even over a nonempty window, while a successful cycle
yields the arithmetic mean of the updated window. -/
theorem C3_smoothed_absent_iff_reading_absent
    (methane_history : List ℚ) (methane : Option ℚ) :
    ((smooth_step methane_history methane).2 = none ↔ methane = none) ∧
    (methane = none →
      smooth_step methane_history methane = (methane_history, none)) ∧
    (∀ m, methane = some m →
      (smooth_step methane_history methane).2
        = some ((push_methane_history methane_history m).sum
            / ((push_methane_history methane_history m).length : ℚ))) := by
  cases methane with
  | none =>
      refine ⟨by simp [smooth_step], fun _ => rfl, ?_⟩
      intro m hm
      exact absurd hm (by simp)
  | some v =>
      refine ⟨by simp [smooth_step], by simp, ?_⟩
      intro m hm
      rw [Option.some_inj] at hm
      subst hm
      rfl

/-- C1 counterexample: with the smoothed methane absent, the main loop's
`methane_avg or 0` argument makes ScreenB's first line the numeric
"Methane: 0.00ppm", not "Methane: N/A". -/
theorem C1_counterexample :
    screen2_methane_str (some (py_or_zero none)) ≠ "Methane: N/A" := by
  have h : screen2_methane_str (some (py_or_zero none)) = "Methane: 0.00ppm" := by
    simp only [screen2_methane_str, py_or_zero, formatFixed2_zero]
    rfl
  rw [h]
  decide

/-- C1 amended: `display_screen_2` itself renders "Methane: N/A" for an
absent (non-numeric) methane argument, but the main loop substitutes 0 for
an absent smoothed value before calling `update` (`methane_avg or 0`), so
the ScreenB line the loop would produce for an absent value is the numeric
"Methane: 0.00ppm". -/
theorem C1_amended_loop_substitutes_zero :
    screen2_methane_str none = "Methane: N/A" ∧
    py_or_zero none = 0 ∧
    screen2_methane_str (some (py_or_zero none)) = "Methane: 0.00ppm" ∧
    display_screen_2 (some (py_or_zero none)) (some "Unknown")
      = [pad "Methane: 0.00ppm", pad "Unknown"] := by
  have h : screen2_methane_str (some (py_or_zero none)) = "Methane: 0.00ppm" := by
    simp only [screen2_methane_str, py_or_zero, formatFixed2_zero]
    rfl
  exact ⟨rfl, rfl, h, by simp only [display_screen_2, screen2_shelf_str, h]⟩

/-- C2: the failing cycle evaluated.  With a calibrated finite baseline, the
raw ADC sample 65535 drives the voltage to the reference, the resistance to
0 and the ratio to 0; the estimator then drops the reading (`None`), the
smoothed value is absent, and the status print of `src/main.py` line 181
raises TypeError (formatting `None` with `:.2f`), which the loop's
`except KeyboardInterrupt` does not catch: the cycle dies instead of
completing with placeholder outputs, whatever the history, screen state or
DHT outcome. -/
theorem C2_absent_methane_crashes_cycle
    (powNegHalf : ℚ → ℚ) (measurement : Except PyExc (ℚ × ℚ))
    (methane_history : List ℚ) (current_screen : Bool) :
    run_cycle ⟨10000, 33 / 10, 4, some (RVal.fin 1)⟩ measurement 65535 powNegHalf
      methane_history current_screen = .error .typeErrorNoneFormat := by
  have hrs : rs_of_raw ⟨10000, 33 / 10, 4, some (RVal.fin 1)⟩ 65535 = RVal.fin 0 := by
    norm_num [rs_of_raw, voltage_from_raw, get_rs]
  have hratio : read_mq4_ratio ⟨10000, 33 / 10, 4, some (RVal.fin 1)⟩ 65535
      = .ok (some (RVal.fin 0)) := by
    norm_num [read_mq4_ratio, hrs, RVal.divR]
  simp [run_cycle, read_all, hratio, estimate_methane_ppm, smooth_step,
    status_methane_field]
